import Mathlib

/-!
Verification development for the Rvision-ORmodels railway decision-support
core.  The Python sources (`pathfinding.py`, `models.py`, `optimizer.py`)
are shallowly embedded: Python dicts become structures whose optional keys
are `Option` fields, Python floats become exact rationals (`ℚ`),
Python ints become `ℤ`, and the in-place mutations of the source become
state-passing functions.  Impure inputs (`datetime.now()` timestamps, the
coordinate heuristic that takes a real square root) are threaded through as
explicit parameters.  Search loops driven by a heap are modelled with an
explicit fuel argument that provably exceeds the number of iterations the
source loop can perform (each station is visited at most once and an
adjacency entry is pushed at most once, so iterations are bounded by the
number of tracks plus one).
-/

namespace RVision

/-! ### Topology graph (`pathfinding.py`, class `NetworkGraph`)

A track record is the Python dict stored in `NetworkGraph.tracks`.  Keys
that the loader may omit and the keys that `disable_track` adds later are
`Option` fields; a `none` models the key being absent from the dict. -/

structure TrackData where
  srcStation : String
  dstStation : String
  distance_km : Option ℚ := none
  travel_time_minutes : Option ℤ := none
  track_type : Option String := none
  capacity_trains_per_hour : Option ℤ := none
  trackPriority : Option String := none
  max_speed_kmh : Option ℚ := none
  status : Option String := none
  original_status : Option String := none
  disable_reason : Option String := none
  disabled_timestamp : Option String := none
deriving DecidableEq, Repr

/-- A station record from `NetworkGraph.stations` (only the keys the
embedded operations ever read are carried). -/
structure StationData where
  stationName : Option String := none
  platforms : Option ℤ := none
deriving DecidableEq, Repr

/-- The `NetworkGraph` object: dicts are association lists in insertion
order (Python dicts preserve insertion order; keys are unique). -/
structure NetworkGraph where
  stations : List (String × StationData)
  tracks : List (String × TrackData)
  adjacency_list : List (String × List (String × String × TrackData))
deriving DecidableEq, Repr

/-- Embeds `NetworkGraph._build_adjacency_list`: every station gets the
list of outgoing tracks (in `tracks` iteration order) whose `from` field
names it.  Tracks whose `from` is not a known station are dropped, exactly
as the `if from_station in self.adjacency_list` guard does. -/
def buildAdjacencyList (stations : List (String × StationData))
    (tracks : List (String × TrackData)) :
    List (String × List (String × String × TrackData)) :=
  stations.map fun s =>
    (s.1, tracks.filterMap fun t =>
      if t.2.srcStation = s.1 then some (t.2.dstStation, t.1, t.2) else none)

/-- Dict lookup on an association list (Python `dict.get` /
`dict[...]`). -/
def lookupKey {α : Type} : List (String × α) → String → Option α
  | [], _ => none
  | p :: rest, k => if p.1 = k then some p.2 else lookupKey rest k

/-- Update the (unique) entry of an association list at a key. -/
def updateAt {α : Type} : List (String × α) → String → (α → α) →
    List (String × α)
  | [], _, _ => []
  | p :: rest, k, f =>
    (if p.1 = k then (p.1, f p.2) else p) :: updateAt rest k f

/-- Embeds `NetworkGraph.disable_track`.  The `now` argument stands for the
`datetime.now().isoformat()` timestamp the source records. -/
def disableTrack (g : NetworkGraph) (track_id : String) (reason : String)
    (now : String) : Bool × NetworkGraph :=
  match lookupKey g.tracks track_id with
  | none => (false, g)
  | some _ =>
    let tracks' := updateAt g.tracks track_id fun td =>
      { td with
        original_status :=
          match td.original_status with
          | none => some (td.status.getD "operational")
          | some s => some s,
        status := some "disabled",
        disable_reason := some reason,
        disabled_timestamp := some now }
    (true, { g with tracks := tracks',
                    adjacency_list := buildAdjacencyList g.stations tracks' })

/-- Embeds `NetworkGraph.enable_track`: restores `original_status`
(defaulting to `"operational"`) and deletes the three disable-metadata
keys, then rebuilds adjacency. -/
def enableTrack (g : NetworkGraph) (track_id : String) :
    Bool × NetworkGraph :=
  match lookupKey g.tracks track_id with
  | none => (false, g)
  | some _ =>
    let tracks' := updateAt g.tracks track_id fun td =>
      { td with
        status := some (td.original_status.getD "operational"),
        original_status := none,
        disable_reason := none,
        disabled_timestamp := none }
    (true, { g with tracks := tracks',
                    adjacency_list := buildAdjacencyList g.stations tracks' })

/-! ### Network-health portion of `RailwayNetwork.get_state_snapshot`
(`models.py` lines 516–531).  The surrounding snapshot fields (per-train
status dicts, platforms, track occupancy, timestamp) do not feed into
`network_health` and are not needed by any claim. -/

structure NetworkStatusInfo where
  total_stations : ℕ
  total_tracks : ℕ
  operational_tracks : ℕ
  failed_tracks : ℕ
  network_health : String
deriving DecidableEq, Repr

/-- Embeds the `network_status` object built by
`RailwayNetwork.get_state_snapshot`: `operational_tracks` counts tracks
with `status == "operational"`, `failed_tracks` counts tracks with
`status == "disabled"`, and `network_health` is `"healthy"` exactly when
`failed_tracks == 0`. -/
def snapshotNetworkStatus (g : NetworkGraph) : NetworkStatusInfo :=
  let operational :=
    (g.tracks.filter fun t => t.2.status = some "operational").length
  let failed :=
    (g.tracks.filter fun t => t.2.status = some "disabled").length
  { total_stations := g.stations.length
    total_tracks := g.tracks.length
    operational_tracks := operational
    failed_tracks := failed
    network_health := if failed = 0 then "healthy" else "degraded" }

/-! ### Pathfinder (`pathfinding.py`, class `RouteOptimizer`)

The coordinate heuristic `_calculate_heuristic_distance` computes a scaled
Euclidean distance, i.e. a real square root, which has no exact rational
value; every search function therefore takes the heuristic as an explicit
function parameter `h`.  Dijkstra never evaluates it and the hard-coded
greedy branch studied by the claims returns before it is consulted. -/

structure RouteSegment where
  track_id : String
  from_station : String
  to_station : String
  distance_km : ℚ
  travel_time_minutes : ℤ
  track_type : String
  capacity : ℤ
  segPriority : String
  segStatus : String
deriving DecidableEq, Repr

structure Route where
  segments : List RouteSegment
  total_distance_km : ℚ
  total_time_minutes : ℤ
  total_cost : ℚ
  route_type : String
  stations : List String
deriving DecidableEq, Repr

/-- Embeds `RouteOptimizer._calculate_edge_cost`.  The source starts from
`base_cost = 0`, so an unrecognised criterion yields cost `0` before the
train-type multipliers. -/
def calculateEdgeCost (td : TrackData) (criteria train_type : String) : ℚ :=
  let base : ℚ :=
    if criteria = "time" then ((td.travel_time_minutes.getD 30 : ℤ) : ℚ)
    else if criteria = "distance" then td.distance_km.getD 20
    else if criteria = "reliability" then
      let b : ℚ := ((td.travel_time_minutes.getD 30 : ℤ) : ℚ)
      let b := if td.track_type = some "single_line" then b * (3/2) else b
      if td.trackPriority = some "low" then b * (13/10) else b
    else 0
  if train_type = "Express" then
    if td.max_speed_kmh.getD 80 < 100 then base * (6/5) else base
  else if train_type = "Goods" then
    if td.track_type = some "single_line" then base * (9/10) else base
  else base

/-- Embeds building one `RouteSegment` from a track dict, with the
defaults the source passes to `.get`. -/
def mkSegment (track_id current neighbor : String) (td : TrackData) :
    RouteSegment :=
  { track_id := track_id
    from_station := current
    to_station := neighbor
    distance_km := td.distance_km.getD 0
    travel_time_minutes := td.travel_time_minutes.getD 30
    track_type := td.track_type.getD "single_line"
    capacity := td.capacity_trains_per_hour.getD 4
    segPriority := td.trackPriority.getD "medium"
    segStatus := td.status.getD "operational" }

/-- One entry of the search priority queue: `(key, insertion counter,
station, path so far, accumulated cost)`.  Dijkstra and greedy ignore the
last component; A* uses it as `g`. -/
abbrev PQEntry := ℚ × ℕ × String × List RouteSegment × ℚ

/-- The binary heap of `heapq` is modelled as a list kept sorted by
`(key, counter)`; since counters are unique the order of pops is exactly
the order `heapq` produces. -/
def pqPush (e : PQEntry) : List PQEntry → List PQEntry
  | [] => [e]
  | f :: fs =>
    if e.1 < f.1 ∨ (e.1 = f.1 ∧ e.2.1 < f.2.1) then e :: f :: fs
    else f :: pqPush e fs

/-- Pushes issued while expanding one station in
`_dijkstra_shortest_path`: skip non-operational tracks and visited
neighbours, otherwise push `(cost + w, counter, neighbour, path ++ [seg])`.
Returns the queue and the next counter value. -/
def dijkstraExpand (criteria train_type current : String)
    (cost : ℚ) (path : List RouteSegment) (visited : List String)
    (neighbors : List (String × String × TrackData))
    (pq : List PQEntry) (counter : ℕ) : List PQEntry × ℕ :=
  neighbors.foldl
    (fun acc nb =>
      let (neighbor, track_id, td) := nb
      if td.status ≠ some "operational" then acc
      else if neighbor ∈ visited then acc
      else
        let w := calculateEdgeCost td criteria train_type
        let seg := mkSegment track_id current neighbor td
        (pqPush (cost + w, acc.2 + 1, neighbor, path ++ [seg], 0) acc.1,
         acc.2 + 1))
    (pq, counter)

/-- The `while pq:` loop of `_dijkstra_shortest_path`, with fuel.  Each
iteration pops the head; a station is expanded at most once, so the loop
runs at most `1 + (number of adjacency entries)` times and the fuel chosen
by `dijkstraShortestPath` is never exhausted. -/
def dijkstraLoop (g : NetworkGraph) (destination criteria train_type : String) :
    ℕ → List PQEntry → List String → ℕ → List RouteSegment
  | 0, _, _, _ => []
  | _ + 1, [], _, _ => []
  | fuel + 1, (cost, _, current, path, _) :: rest, visited, counter =>
    if current ∈ visited then
      dijkstraLoop g destination criteria train_type fuel rest visited counter
    else
      let visited' := current :: visited
      if current = destination then path
      else
        let nbs := (lookupKey g.adjacency_list current).getD []
        let (pq', counter') :=
          dijkstraExpand criteria train_type current cost path visited' nbs
            rest counter
        dijkstraLoop g destination criteria train_type fuel pq' visited' counter'

/-- Embeds `RouteOptimizer._dijkstra_shortest_path`. -/
def dijkstraShortestPath (g : NetworkGraph) (origin destination : String)
    (criteria train_type : String) : List RouteSegment :=
  dijkstraLoop g destination criteria train_type (g.tracks.length + 2)
    [(0, 0, origin, [], 0)] [] 0

/-- Pushes issued while expanding one station in the fallback part of
`_greedy_best_first`: the queue key is the heuristic of the neighbour
only. -/
def greedyExpand (h : String → String → ℚ) (destination current : String)
    (path : List RouteSegment) (visited : List String)
    (neighbors : List (String × String × TrackData))
    (pq : List PQEntry) (counter : ℕ) : List PQEntry × ℕ :=
  neighbors.foldl
    (fun acc nb =>
      let (neighbor, track_id, td) := nb
      if td.status ≠ some "operational" ∨ neighbor ∈ visited then acc
      else
        let key := h neighbor destination
        let seg := mkSegment track_id current neighbor td
        (pqPush (key, acc.2 + 1, neighbor, path ++ [seg], 0) acc.1,
         acc.2 + 1))
    (pq, counter)

/-- The `while pq:` loop of the fallback greedy search, with fuel (see
`dijkstraLoop` for the bound argument). -/
def greedyLoop (h : String → String → ℚ) (g : NetworkGraph)
    (destination : String) :
    ℕ → List PQEntry → List String → ℕ → List RouteSegment
  | 0, _, _, _ => []
  | _ + 1, [], _, _ => []
  | fuel + 1, (_, _, current, path, _) :: rest, visited, counter =>
    if current ∈ visited then
      greedyLoop h g destination fuel rest visited counter
    else
      let visited' := current :: visited
      if current = destination then path
      else
        let nbs := (lookupKey g.adjacency_list current).getD []
        let (pq', counter') :=
          greedyExpand h destination current path visited' nbs rest counter
        greedyLoop h g destination fuel pq' visited' counter'

/-- Embeds `RouteOptimizer._greedy_best_first` including its hard-coded
demo branch: when routing `NDLS -> GZB` and both `NDLS_SBB_ALT` and
`SBB_GZB_ALT` exist with operational status, the fixed two-segment path
via `SBB` is returned before the priority-queue search is ever entered.
The `criteria` and `train_type` parameters are accepted, as in the
source, but never used by either the branch or the fallback. -/
def greedyBestFirst (h : String → String → ℚ) (g : NetworkGraph)
    (origin destination _criteria _train_type : String) : List RouteSegment :=
  let demo : Option (List RouteSegment) :=
    if origin = "NDLS" ∧ destination = "GZB" then
      match lookupKey g.tracks "NDLS_SBB_ALT", lookupKey g.tracks "SBB_GZB_ALT" with
      | some sbb, some gzb =>
        if sbb.status = some "operational" ∧ gzb.status = some "operational"
        then
          some
            [{ track_id := "NDLS_SBB_ALT"
               from_station := "NDLS"
               to_station := "SBB"
               distance_km := sbb.distance_km.getD (221/10)
               travel_time_minutes := sbb.travel_time_minutes.getD 35
               track_type := sbb.track_type.getD "single_line"
               capacity := sbb.capacity_trains_per_hour.getD 3
               segPriority := sbb.trackPriority.getD "medium"
               segStatus := "operational" },
             { track_id := "SBB_GZB_ALT"
               from_station := "SBB"
               to_station := "GZB"
               distance_km := gzb.distance_km.getD (123/10)
               travel_time_minutes := gzb.travel_time_minutes.getD 20
               track_type := gzb.track_type.getD "single_line"
               capacity := gzb.capacity_trains_per_hour.getD 3
               segPriority := gzb.trackPriority.getD "medium"
               segStatus := "operational" }]
        else none
      | _, _ => none
    else none
  match demo with
  | some segs => segs
  | none =>
    greedyLoop h g destination (g.tracks.length + 2) [(0, 0, origin, [], 0)]
      [] 0

/-- Pushes issued while expanding one station in the fallback part of
`_astar_search`: the key is `g + h` and the accumulated cost rides in the
entry's final component. -/
def astarExpand (h : String → String → ℚ)
    (criteria train_type destination current : String)
    (gCost : ℚ) (path : List RouteSegment) (visited : List String)
    (neighbors : List (String × String × TrackData))
    (pq : List PQEntry) (counter : ℕ) : List PQEntry × ℕ :=
  neighbors.foldl
    (fun acc nb =>
      let (neighbor, track_id, td) := nb
      if td.status ≠ some "operational" ∨ neighbor ∈ visited then acc
      else
        let w := calculateEdgeCost td criteria train_type
        let g' := gCost + w
        let f := g' + h neighbor destination
        let seg := mkSegment track_id current neighbor td
        (pqPush (f, acc.2 + 1, neighbor, path ++ [seg], g') acc.1, acc.2 + 1))
    (pq, counter)

/-- The `while pq:` loop of the fallback A* search, with fuel (see
`dijkstraLoop` for the bound argument). -/
def astarLoop (h : String → String → ℚ) (g : NetworkGraph)
    (destination criteria train_type : String) :
    ℕ → List PQEntry → List String → ℕ → List RouteSegment
  | 0, _, _, _ => []
  | _ + 1, [], _, _ => []
  | fuel + 1, (_, _, current, path, gCost) :: rest, visited, counter =>
    if current ∈ visited then
      astarLoop h g destination criteria train_type fuel rest visited counter
    else
      let visited' := current :: visited
      if current = destination then path
      else
        let nbs := (lookupKey g.adjacency_list current).getD []
        let (pq', counter') :=
          astarExpand h criteria train_type destination current gCost path
            visited' nbs rest counter
        astarLoop h g destination criteria train_type fuel pq' visited' counter'

/-- Embeds `RouteOptimizer._astar_search` including its hard-coded demo
branch for `NDLS -> GZB` via `SHZM` and `ANVR`. -/
def astarSearch (h : String → String → ℚ) (g : NetworkGraph)
    (origin destination criteria train_type : String) : List RouteSegment :=
  let demo : Option (List RouteSegment) :=
    if origin = "NDLS" ∧ destination = "GZB" then
      match lookupKey g.tracks "NDLS_SHZM_DIRECT",
            lookupKey g.tracks "SHZM_ANVR_LOCAL",
            lookupKey g.tracks "ANVR_GZB_MAIN" with
      | some shzm, some anvr, some gzb =>
        if shzm.status = some "operational" ∧ anvr.status = some "operational"
            ∧ gzb.status = some "operational" then
          some
            [{ track_id := "NDLS_SHZM_DIRECT"
               from_station := "NDLS"
               to_station := "SHZM"
               distance_km := shzm.distance_km.getD (83/10)
               travel_time_minutes := shzm.travel_time_minutes.getD 12
               track_type := shzm.track_type.getD "single_line"
               capacity := shzm.capacity_trains_per_hour.getD 6
               segPriority := shzm.trackPriority.getD "medium"
               segStatus := "operational" },
             { track_id := "SHZM_ANVR_LOCAL"
               from_station := "SHZM"
               to_station := "ANVR"
               distance_km := anvr.distance_km.getD (112/10)
               travel_time_minutes := anvr.travel_time_minutes.getD 20
               track_type := anvr.track_type.getD "single_line"
               capacity := anvr.capacity_trains_per_hour.getD 4
               segPriority := anvr.trackPriority.getD "medium"
               segStatus := "operational" },
             { track_id := "ANVR_GZB_MAIN"
               from_station := "ANVR"
               to_station := "GZB"
               distance_km := gzb.distance_km.getD (187/10)
               travel_time_minutes := gzb.travel_time_minutes.getD 30
               track_type := gzb.track_type.getD "double_line"
               capacity := gzb.capacity_trains_per_hour.getD 6
               segPriority := gzb.trackPriority.getD "high"
               segStatus := "operational" }]
        else none
      | _, _, _ => none
    else none
  match demo with
  | some segs => segs
  | none =>
    astarLoop h g destination criteria train_type (g.tracks.length + 2)
      [(h origin destination, 0, origin, [], 0)] [] 0

/-- Embeds `RouteOptimizer._calculate_route_cost`: total travel time, plus
10 for more than two segments, plus 5 per single-line segment.  The
`train_type` parameter is accepted and ignored, as in the source. -/
def calculateRouteCost (segments : List RouteSegment) (_train_type : String) :
    ℚ :=
  (((segments.map RouteSegment.travel_time_minutes).sum : ℤ) : ℚ)
    + (if 2 < segments.length then 10 else 0)
    + 5 * ((segments.filter fun s => s.track_type = "single_line").length : ℚ)

/-- Embeds `RouteOptimizer.find_best_route`: validates the endpoints,
returns `none` for `origin == destination`, dispatches on the strategy,
and assembles the `Route` object (totals, cost, `"<strategy>_route"` tag,
station list). -/
def findBestRoute (h : String → String → ℚ) (strategy : String)
    (g : NetworkGraph) (origin destination train_type criteria : String) :
    Option Route :=
  if (lookupKey g.stations origin).isNone ∨ (lookupKey g.stations destination).isNone
  then none
  else if origin = destination then none
  else
    let segs :=
      if strategy = "greedy" then
        greedyBestFirst h g origin destination criteria train_type
      else if strategy = "astar" then
        astarSearch h g origin destination criteria train_type
      else dijkstraShortestPath g origin destination criteria train_type
    match segs with
    | [] => none
    | s0 :: _ =>
      some
        { segments := segs
          total_distance_km := (segs.map RouteSegment.distance_km).sum
          total_time_minutes := (segs.map RouteSegment.travel_time_minutes).sum
          total_cost := calculateRouteCost segs train_type
          route_type := strategy ++ "_route"
          stations := s0.from_station :: segs.map RouteSegment.to_station }

/-- Embeds `RouteOptimizer._is_duplicate_route`: a route is a duplicate if
it has the same station list as an existing route, or if the share of its
segments whose `track_id` occurs in an existing route exceeds 0.8. -/
def isDuplicateRoute (newRoute : Route) (existing : List Route) : Bool :=
  existing.any fun ex =>
    newRoute.stations = ex.stations ∨
      (((newRoute.segments.filter fun s =>
            ex.segments.any fun e => e.track_id = s.track_id).length : ℚ)
          / (newRoute.segments.length : ℚ) > 4/5)

/-- Stable insertion of `a` into a list sorted by the key `key`: `a` goes
in front of the first element whose key is not smaller.  Used to model
Python's stable `list.sort`. -/
def insertByKey {α : Type} (key : α → ℚ) (a : α) : List α → List α
  | [] => [a]
  | b :: bs => if key b < key a then b :: insertByKey key a bs
               else a :: b :: bs

/-- Stable sort by a rational key.  Python's `list.sort` is stable and a
stable ascending sort is uniquely determined by the key, so this insertion
sort produces exactly the list the source produces. -/
def sortByKey {α : Type} (key : α → ℚ) : List α → List α
  | [] => []
  | a :: as => insertByKey key a (sortByKey key as)

/-- Embeds `RouteOptimizer.find_alternative_routes`: runs the search under
`time`, `reliability`, `distance` in that order, skipping duplicates and
stopping once `max_alternatives` routes are collected (the source's
`break`), then sorts ascending by `total_cost` and truncates. -/
def findAlternativeRoutes (h : String → String → ℚ) (strategy : String)
    (g : NetworkGraph) (origin destination train_type : String)
    (max_alternatives : ℕ) : List Route :=
  let step := fun (routes : List Route) (criteria : String) =>
    if max_alternatives ≤ routes.length then routes
    else
      match findBestRoute h strategy g origin destination train_type criteria
      with
      | some r => if isDuplicateRoute r routes then routes else routes ++ [r]
      | none => routes
  let routes := [("time" : String), "reliability", "distance"].foldl step []
  (sortByKey Route.total_cost routes).take max_alternatives

/-! ### Train model (`models.py`, class `Train`)

A `Train` value is the mutable state of one `Train` object.  Delay counts
are `ℤ` (Python ints).  The in-place mutations become functions returning
the Python method's result paired with the updated train. -/

structure Train where
  id : String
  train_type : String
  section_start : String
  section_end : String
  scheduled_departure_time : String
  scheduled_arrival_time : String
  day_of_week : String
  time_of_day : String
  weather : String
  track_condition : String
  trainStatus : String
  initial_reported_delay_mins : ℤ
  actual_delay_mins : ℤ
  current_location : String
  trainPriority : ℤ
  primary_route : Option Route
  alternative_routes : List Route
  current_route : Option Route
deriving DecidableEq, Repr

/-- Embeds `Train._calculate_priority`: base from the train type
(`Express 1`, `Passenger 3`, `Goods 5`, `Local 4`, default 3), lowered by
one at peak hours but never below 1. -/
def calculatePriority (train_type time_of_day : String) : ℤ :=
  let base : ℤ :=
    if train_type = "Express" then 1
    else if train_type = "Passenger" then 3
    else if train_type = "Goods" then 5
    else if train_type = "Local" then 4
    else 3
  if time_of_day = "Morning_Peak" ∨ time_of_day = "Evening_Peak" then
    max 1 (base - 1)
  else base

/-- Embeds `Train.get_name`. -/
def trainName (t : Train) : String := t.train_type ++ " " ++ t.id

/-- Embeds `Train.apply_delay`: adds the minutes and rewrites the status
string. -/
def applyDelayTo (t : Train) (additional_delay_mins : ℤ) (reason : String) :
    Train :=
  { t with
    actual_delay_mins := t.actual_delay_mins + additional_delay_mins
    trainStatus :=
      if reason ≠ "Unknown" then "Delayed (" ++ reason ++ ")" else "Delayed" }

/-- Embeds `Train.apply_halt`: unconditionally adds the duration (even a
negative one) to the delay, sets a halt status and returns `True`. -/
def applyHalt (t : Train) (halt_duration_mins : ℤ) (reason : String) :
    Bool × Train :=
  (true,
   { t with
     actual_delay_mins := t.actual_delay_mins + halt_duration_mins
     trainStatus :=
       "Halted (" ++ reason ++ ") - " ++ toString halt_duration_mins
         ++ " min" })

/-- Embeds `Train.apply_cancellation`: only the status string changes. -/
def applyCancellation (t : Train) (reason : String) : Bool × Train :=
  (true, { t with trainStatus := "Cancelled (" ++ reason ++ ")" })

/-- Python's `int()` truncates a float toward zero. -/
def pyInt (q : ℚ) : ℤ := if 0 ≤ q then ⌊q⌋ else -⌊-q⌋

/-- Embeds `Train.apply_speed_adjustment`: a factor above one adds
`int((factor-1)*60)` minutes of delay, a factor below one (including zero
and negative factors — the source never validates) subtracts
`int((1-factor)*60)` minutes floored at zero, a factor of exactly one
changes nothing.  All paths return `True`. -/
def applySpeedAdjustment (t : Train) (adjustment_factor : ℚ)
    (reason : String) : Bool × Train :=
  if 1 < adjustment_factor then
    (true,
     { t with
       actual_delay_mins :=
         t.actual_delay_mins + pyInt ((adjustment_factor - 1) * 60)
       trainStatus := "Speed Reduced (" ++ reason ++ ")" })
  else if adjustment_factor < 1 then
    (true,
     { t with
       actual_delay_mins :=
         max 0 (t.actual_delay_mins - pyInt ((1 - adjustment_factor) * 60))
       trainStatus := "Speed Increased (" ++ reason ++ ")" })
  else (true, t)

/-- Embeds `Train.switch_to_alternative_route`. -/
def switchToAlternativeRoute (t : Train) (route_index : ℕ) : Bool × Train :=
  match t.alternative_routes[route_index]? with
  | none => (false, t)
  | some r =>
    let additional_delay : ℤ :=
      max 0 (r.total_time_minutes -
        (match t.primary_route with
         | some p => p.total_time_minutes
         | none => 0))
    (true,
     { t with
       current_route := some r
       actual_delay_mins := t.actual_delay_mins + additional_delay
       trainStatus := "Rerouted via " ++ r.route_type ++ " route" })

/-- Embeds `Train.set_routes`. -/
def setRoutes (t : Train) (primary : Route) (alternatives : List Route) :
    Train :=
  { t with primary_route := some primary
           alternative_routes := alternatives
           current_route := some primary }

/-! ### Network (`models.py`, class `RailwayNetwork`)

The train dict is an association list in insertion order.  The
`pathfinding_strategy` of the owned `RouteOptimizer` is carried as a
field (it is `"dijkstra"` unless `set_pathfinding_strategy` was called). -/

structure RailwayNetwork where
  graph : NetworkGraph
  pathfinding_strategy : String
  trains : List (String × Train)
  platforms : List (String × List (ℕ × Option String))
  track_occupancy : List (String × Option String)
deriving DecidableEq, Repr

/-- The event envelope handed to `RailwayNetwork.apply_event`; absent dict
keys are `none`. -/
structure EventData where
  event_type : Option String := none
  train_id : Option String := none
  track_id : Option String := none
  delay_minutes : Option ℤ := none
  description : Option String := none
  eventWeather : Option String := none
  eventTrackCondition : Option String := none
deriving DecidableEq, Repr

/-- Embeds `RailwayNetwork._handle_train_event`: an unknown (or missing)
`train_id` returns `False` and leaves the network untouched; otherwise the
delay is applied and the optional weather / track-condition updates are
installed on that train. -/
def handleTrainEvent (net : RailwayNetwork) (ev : EventData) :
    Bool × RailwayNetwork :=
  match ev.train_id with
  | none => (false, net)
  | some tid =>
    match lookupKey net.trains tid with
    | none => (false, net)
    | some _ =>
      let upd := fun t =>
        let t := applyDelayTo t (ev.delay_minutes.getD 0)
          (ev.description.getD "Reported disruption")
        let t := match ev.eventWeather with
                 | some w => { t with weather := w }
                 | none => t
        match ev.eventTrackCondition with
        | some c => { t with track_condition := c }
        | none => t
      (true, { net with trains := updateAt net.trains tid upd })

/-- Embeds `RailwayNetwork._find_trains_using_track` as a predicate on one
train: its current route has a segment on the given track. -/
def usesTrack (t : Train) (track_id : String) : Bool :=
  match t.current_route with
  | none => false
  | some r => r.segments.any fun seg => seg.track_id = track_id

/-- Embeds `RailwayNetwork._handle_track_failure_event`: disable the
track, then give every train whose current route uses it a fresh set of up
to three alternative routes (only overwriting when the new set is
non-empty). -/
def handleTrackFailureEvent (h : String → String → ℚ)
    (now : String) (net : RailwayNetwork) (ev : EventData) :
    Bool × RailwayNetwork :=
  match ev.track_id with
  | none => (false, net)
  | some tid =>
    let reason := ev.description.getD "Track failure"
    let (ok, g') := disableTrack net.graph tid reason now
    if ok then
      let trains' := net.trains.map fun p =>
        if usesTrack p.2 tid then
          let alts := findAlternativeRoutes h net.pathfinding_strategy g'
            p.2.section_start p.2.section_end p.2.train_type 3
          if alts = [] then p
          else (p.1, { p.2 with alternative_routes := alts })
        else p
      (true, { net with graph := g', trains := trains' })
    else (false, { net with graph := g' })

/-- Embeds `RailwayNetwork._initialize_train_routes`: each train gets a
primary route under the `time` criterion and up to two alternatives with
the primary filtered out; trains with no primary route keep their route
slots unchanged. -/
def initTrainRoutes (h : String → String → ℚ) (strategy : String)
    (g : NetworkGraph) (trains : List (String × Train)) :
    List (String × Train) :=
  trains.map fun p =>
    let t := p.2
    let primary := findBestRoute h strategy g t.section_start t.section_end
      t.train_type "time"
    let alts := findAlternativeRoutes h strategy g t.section_start
      t.section_end t.train_type 2
    match primary with
    | some pr => (p.1, setRoutes t pr (alts.filter fun r => r ≠ pr))
    | none => p

/-- Embeds `RailwayNetwork._handle_track_repair_event`: re-enable the
track and, on success, reinitialise routes for all trains. -/
def handleTrackRepairEvent (h : String → String → ℚ)
    (net : RailwayNetwork) (ev : EventData) : Bool × RailwayNetwork :=
  match ev.track_id with
  | none => (false, net)
  | some tid =>
    let (ok, g') := enableTrack net.graph tid
    if ok then
      (true, { net with
               graph := g',
               trains := initTrainRoutes h net.pathfinding_strategy g'
                 net.trains })
    else (false, { net with graph := g' })

/-- Embeds `RailwayNetwork.apply_event`: dispatch on `event_type`
(defaulting to `delay`); unknown event types fall through to the train
event handler. -/
def applyEvent (h : String → String → ℚ) (now : String)
    (net : RailwayNetwork) (ev : EventData) : Bool × RailwayNetwork :=
  let event_type := ev.event_type.getD "delay"
  if event_type = "track_failure" then handleTrackFailureEvent h now net ev
  else if event_type = "track_repair" then handleTrackRepairEvent h net ev
  else handleTrainEvent net ev

/-- The action envelope handed to `RailwayNetwork.apply_action`. -/
structure ActionData where
  action_type : Option String := none
  train_id : Option String := none
  duration_mins : Option ℤ := none
  route_index : Option ℕ := none
  speed_factor : Option ℚ := none
deriving DecidableEq, Repr

/-- Embeds `RailwayNetwork.apply_action`: look the train up, dispatch to
the train mutation for the action type, and report that mutation's
result.  Unknown actions and unknown trains return `False` with the
network unchanged. -/
def applyAction (net : RailwayNetwork) (a : ActionData) :
    Bool × RailwayNetwork :=
  match a.train_id with
  | none => (false, net)
  | some tid =>
    match lookupKey net.trains tid with
    | none => (false, net)
    | some t =>
      let action_type := a.action_type
      let apply1 : Option (Bool × Train) :=
        if action_type = some "Halt" then
          some (applyHalt t (a.duration_mins.getD 10) "AI Optimization")
        else if action_type = some "Reroute" then
          some (switchToAlternativeRoute t (a.route_index.getD 0))
        else if action_type = some "Cancel" then
          some (applyCancellation t "AI Optimization")
        else if action_type = some "SpeedAdjust" then
          some (applySpeedAdjustment t (a.speed_factor.getD 1) "AI Optimization")
        else none
      match apply1 with
      | none => (false, net)
      | some (ok, t') =>
        (ok, { net with trains := updateAt net.trains tid fun _ => t' })

/-! ### Scheduled-time parsing (`Train.get_eta_at_destination`)

The source parses `scheduled_arrival_time` with
`datetime.strptime(_, "%Y-%m-%d %H:%M:%S")` and works with `datetime` and
`timedelta` values; differences are later converted to minutes.  We embed
a timestamp as an exact number of minutes (a rational, since seconds
contribute sixtieths) counted from the civil epoch 1970-01-01, using the
standard days-from-civil conversion.  A string that does not match the
happy path of `strptime` parses to `none`, which the source surfaces as a
missing ETA. -/

def isLeapYear (y : ℤ) : Bool := y % 4 = 0 ∧ (y % 100 ≠ 0 ∨ y % 400 = 0)

def daysInMonth (y m : ℤ) : ℤ :=
  if m = 1 then 31 else if m = 2 then (if isLeapYear y then 29 else 28)
  else if m = 3 then 31 else if m = 4 then 30 else if m = 5 then 31
  else if m = 6 then 30 else if m = 7 then 31 else if m = 8 then 31
  else if m = 9 then 30 else if m = 10 then 31 else if m = 11 then 30
  else 31

/-- Days since 1970-01-01 of a civil date (Hinnant's algorithm, with floor
division). -/
def daysFromCivil (y m d : ℤ) : ℤ :=
  let y' := if m ≤ 2 then y - 1 else y
  let era := Int.fdiv y' 400
  let yoe := y' - era * 400
  let mp := if 2 < m then m - 3 else m + 9
  let doy := Int.fdiv (153 * mp + 2) 5 + d - 1
  let doe := yoe * 365 + Int.fdiv yoe 4 - Int.fdiv yoe 100 + doy
  era * 146097 + doe - 719468

/-- Split a character list at every occurrence of the separator (the
splitting performed by `str.split` on a one-character separator), written
over `String.data` so that it evaluates by kernel reduction. -/
def splitChars (sep : Char) : List Char → List (List Char)
  | [] => [[]]
  | c :: cs =>
    match splitChars sep cs with
    | [] => if c = sep then [[], []] else [[c]]
    | piece :: rest =>
      if c = sep then [] :: piece :: rest else (c :: piece) :: rest

/-- Parse a non-empty all-digit character list as a decimal number (the
happy path of `int(...)` on a `strptime` field). -/
def digitsToNat : List Char → Option ℕ
  | [] => none
  | cs =>
    cs.foldl
      (fun acc c =>
        acc.bind fun n =>
          if '0' ≤ c ∧ c ≤ '9' then some (n * 10 + (c.toNat - 48)) else none)
      (some 0)

/-- Parse one decimal field of the timestamp. -/
def parseNatField (s : List Char) : Option ℕ := digitsToNat s

/-- Embeds the `datetime.strptime(value, "%Y-%m-%d %H:%M:%S")` call as a
total parser to minutes-since-epoch; out-of-range fields or a shape
mismatch give `none` (the source's `except` branch). -/
def parseDatetimeMinutes (s : String) : Option ℚ :=
  match splitChars ' ' s.data with
  | [date, time] =>
    match splitChars '-' date, splitChars ':' time with
    | [ys, ms, ds], [hs, mins, ss] =>
      match parseNatField ys, parseNatField ms, parseNatField ds,
            parseNatField hs, parseNatField mins, parseNatField ss with
      | some y, some mo, some d, some hh, some mi, some se =>
        if 1 ≤ mo ∧ mo ≤ 12 ∧ 1 ≤ d ∧ (d : ℤ) ≤ daysInMonth y mo
            ∧ hh ≤ 23 ∧ mi ≤ 59 ∧ se ≤ 59 then
          some ((daysFromCivil y mo d : ℚ) * 1440 + hh * 60 + mi
            + (se : ℚ) / 60)
        else none
      | _, _, _, _, _, _ => none
    | _, _ => none
  | _ => none

/-- The dict returned by a successful `Train.get_eta_at_destination`; all
times in minutes since the epoch. -/
structure EtaInfo where
  destination : String
  scheduled_time : ℚ
  eta : ℚ
  total_delay_mins : ℤ
deriving DecidableEq, Repr

/-- Embeds `Train.get_eta_at_destination`: scheduled arrival plus the
reported delay, plus 5 minutes for Rain or Fog, plus 10 minutes for
track maintenance.  A `none` models the fallback dict whose `eta` key is
`None`. -/
def getEtaAtDestination (t : Train) : Option EtaInfo :=
  (parseDatetimeMinutes t.scheduled_arrival_time).map fun sched =>
    let weather_delay : ℤ := if t.weather = "Rain" ∨ t.weather = "Fog" then 5
                             else 0
    let track_delay : ℤ := if t.track_condition = "Maintenance" then 10 else 0
    let total_delay := t.actual_delay_mins + weather_delay + track_delay
    { destination := t.section_end
      scheduled_time := sched
      eta := sched + (total_delay : ℚ)
      total_delay_mins := total_delay }

/-- One record of the list returned by
`RailwayNetwork.get_all_train_etas`.  The severity calculators later ask
these dicts for a `time_of_day` key that `get_all_train_etas` never
writes; the field is therefore an `Option` and the producer always stores
`none`. -/
structure ETARecord where
  train_id : String
  train_name : String
  train_type : String
  recPriority : ℤ
  destination : String
  eta : ℚ
  scheduled_time : ℚ
  total_delay_mins : ℤ
  weather : String
  track_condition : String
  time_of_day : Option String
deriving DecidableEq, Repr

/-- Embeds `RailwayNetwork.get_all_train_etas`: one record per train whose
ETA parses, in train-dict order. -/
def getAllTrainEtas (net : RailwayNetwork) : List ETARecord :=
  net.trains.filterMap fun p =>
    (getEtaAtDestination p.2).map fun info =>
      { train_id := p.2.id
        train_name := trainName p.2
        train_type := p.2.train_type
        recPriority := p.2.trainPriority
        destination := info.destination
        eta := info.eta
        scheduled_time := info.scheduled_time
        total_delay_mins := info.total_delay_mins
        weather := p.2.weather
        track_condition := p.2.track_condition
        time_of_day := none }

/-! ### Conflict detection (`optimizer.py`, `Optimizer._detect_conflicts`,
`_calculate_required_buffer`, `_calculate_conflict_severity`, and the
`MultiStrategyOptimizer` copies) -/

/-- Embeds `Optimizer._calculate_required_buffer` (the
`MultiStrategyOptimizer._calculate_required_buffer` copy is identical):
sequential reassignment of the base, then the additive weather and
maintenance adjustments. -/
def calculateRequiredBuffer (t1 t2 : ETARecord) : ℤ :=
  let base : ℤ := 10
  let base := if t1.train_type = "Express" ∧ t2.train_type = "Express" then 8
              else base
  let base := if t1.train_type = "Goods" ∨ t2.train_type = "Goods" then 20
              else base
  let base := if (t1.weather = "Rain" ∨ t1.weather = "Fog")
                  ∨ (t2.weather = "Rain" ∨ t2.weather = "Fog") then base + 5
              else base
  if t1.track_condition = "Maintenance" ∨ t2.track_condition = "Maintenance"
  then base + 10 else base

/-- Embeds the shared threshold mapping at the end of both severity
calculators. -/
def severityThreshold (score : ℤ) : String :=
  if 5 ≤ score then "Critical"
  else if 3 ≤ score then "High"
  else if 2 ≤ score then "Medium"
  else "Low"

/-- Embeds `Optimizer._calculate_conflict_severity`: sequential increments
for the time gap, priorities, weather, track maintenance and peak time of
day, then the threshold mapping.  The float literals `0.3` and `0.6` of
the source are taken at their decimal value. -/
def calculateConflictSeverity (t1 t2 : ETARecord) (time_diff : ℚ)
    (required_buffer : ℤ) : String :=
  let s : ℤ := 0
  let s := s + (if time_diff < (required_buffer : ℚ) * (3/10) then 3
                else if time_diff < (required_buffer : ℚ) * (6/10) then 2
                else 1)
  let s := s + (if t1.recPriority ≤ 2 ∨ t2.recPriority ≤ 2 then 1 else 0)
  let s := s + (if t1.weather ≠ "Clear" ∨ t2.weather ≠ "Clear" then 1 else 0)
  let s := s + (if t1.track_condition = "Maintenance"
                    ∨ t2.track_condition = "Maintenance" then 1 else 0)
  let s := s + (if t1.time_of_day = some "Morning_Peak"
                    ∨ t1.time_of_day = some "Evening_Peak"
                    ∨ t2.time_of_day = some "Morning_Peak"
                    ∨ t2.time_of_day = some "Evening_Peak" then 1 else 0)
  severityThreshold s

/-- Embeds `MultiStrategyOptimizer._calculate_conflict_severity`, which —
unlike the single-`Optimizer` version — has no track-maintenance and no
peak-time increments. -/
def calculateConflictSeverityMS (t1 t2 : ETARecord) (time_diff : ℚ)
    (required_buffer : ℤ) : String :=
  let s : ℤ := 0
  let s := s + (if time_diff < (required_buffer : ℚ) * (3/10) then 3
                else if time_diff < (required_buffer : ℚ) * (6/10) then 2
                else 1)
  let s := s + (if t1.recPriority ≤ 2 ∨ t2.recPriority ≤ 2 then 1 else 0)
  let s := s + (if t1.weather ≠ "Clear" ∨ t2.weather ≠ "Clear" then 1 else 0)
  severityThreshold s

/-- A conflict record as assembled by `Optimizer._detect_conflicts`.  The
wall-clock `conflict_id` and the human-readable `details` sentence are
display-only and omitted; `time_gap_minutes` keeps the exact gap (the
source rounds it to one decimal for display only). -/
structure Conflict where
  conflictType : String
  location : String
  affected_trains : List String
  train_details : ETARecord × ETARecord
  time_gap_minutes : ℚ
  required_buffer_minutes : ℤ
  severity : String
  weather_impact : Bool
  track_maintenance : Bool
deriving DecidableEq, Repr

/-- The conflict record built for one adjacent pair. -/
def mkConflict (destination : String) (t1 t2 : ETARecord) : Conflict :=
  let time_diff := t2.eta - t1.eta
  let buffer := calculateRequiredBuffer t1 t2
  { conflictType := "SectionCapacityConflict"
    location := destination
    affected_trains := [t1.train_id, t2.train_id]
    train_details := (t1, t2)
    time_gap_minutes := time_diff
    required_buffer_minutes := buffer
    severity := calculateConflictSeverity t1 t2 time_diff buffer
    weather_impact := t1.weather ≠ "Clear" ∨ t2.weather ≠ "Clear"
    track_maintenance := t1.track_condition = "Maintenance"
        ∨ t2.track_condition = "Maintenance" }

/-- Insert one ETA record into the `section_bookings` dict keyed by
destination, preserving both the dict's key insertion order and the order
of records within a group. -/
def bookRecord (acc : List (String × List ETARecord)) (r : ETARecord) :
    List (String × List ETARecord) :=
  if acc.any fun p => p.1 = r.destination then
    acc.map fun p => if p.1 = r.destination then (p.1, p.2 ++ [r]) else p
  else acc ++ [(r.destination, [r])]

/-- The `section_bookings` grouping loop of `_detect_conflicts`. -/
def groupByDestination (etas : List ETARecord) :
    List (String × List ETARecord) :=
  etas.foldl bookRecord []

/-- The sort `arriving_trains.sort(key=lambda x: x['eta'])` — Python's
sort is stable, and `sortByKey` is the stable ascending sort. -/
def sortByEta (group : List ETARecord) : List ETARecord :=
  sortByKey ETARecord.eta group

/-- The inner pair scan of `_detect_conflicts`: every adjacent pair of the
sorted group whose gap is below the required buffer yields a conflict. -/
def pairScan (destination : String) : List ETARecord → List Conflict
  | t1 :: t2 :: rest =>
    (if t2.eta - t1.eta < (calculateRequiredBuffer t1 t2 : ℚ) then
      [mkConflict destination t1 t2]
    else []) ++ pairScan destination (t2 :: rest)
  | _ => []

/-- Conflicts contributed by one destination group (the
`if len(arriving_trains) > 1` branch). -/
def groupConflicts (p : String × List ETARecord) : List Conflict :=
  if 1 < p.2.length then pairScan p.1 (sortByEta p.2) else []

/-- Embeds `Optimizer._detect_conflicts` (the
`MultiStrategyOptimizer._detect_conflicts` copy differs only in the
omitted display fields): fewer than two ETA records yield no conflicts;
otherwise records are grouped by destination, each group is sorted by ETA
and every adjacent pair closer than its dynamic buffer is reported.  The
`projection_horizon_mins` argument of the source is ignored by the source
itself. -/
def detectConflicts (etas : List ETARecord) : List Conflict :=
  if etas.length < 2 then []
  else ((groupByDestination etas).map groupConflicts).flatten

/-! ### Strategy scoring (`optimizer.py`, `MultiStrategyOptimizer`) -/

/-- Embeds the module-level `PRIORITY_WEIGHTS` dict together with the
`.get(priority, 50)` default used at the lookup sites. -/
def priorityWeightLookup (p : ℤ) : ℚ :=
  if p = 1 then 100 else if p = 2 then 80 else if p = 3 then 50
  else if p = 4 then 20 else if p = 5 then 5 else 50

/-- A strategy weight profile as built by `_get_balanced_weights` and its
siblings. -/
structure StrategyWeights where
  express_priority_multiplier : ℚ
  passenger_priority_multiplier : ℚ
  goods_priority_multiplier : ℚ
  halt_penalty_multiplier : ℚ
  reroute_penalty_multiplier : ℚ
  cancel_penalty_multiplier : ℚ
  peak_hour_multiplier : ℚ
deriving DecidableEq, Repr

/-- Embeds `MultiStrategyOptimizer._get_balanced_weights`. -/
def balancedWeights : StrategyWeights :=
  { express_priority_multiplier := 1
    passenger_priority_multiplier := 1
    goods_priority_multiplier := 1
    halt_penalty_multiplier := 1
    reroute_penalty_multiplier := 1
    cancel_penalty_multiplier := 1
    peak_hour_multiplier := 1 }

/-- Embeds `MultiStrategyOptimizer._get_punctuality_weights`. -/
def punctualityWeights : StrategyWeights :=
  { express_priority_multiplier := 3/5
    passenger_priority_multiplier := 7/10
    goods_priority_multiplier := 3/2
    halt_penalty_multiplier := 13/10
    reroute_penalty_multiplier := 4/5
    cancel_penalty_multiplier := 9/10
    peak_hour_multiplier := 1/2 }

/-- Embeds `MultiStrategyOptimizer._get_throughput_weights`. -/
def throughputWeights : StrategyWeights :=
  { express_priority_multiplier := 13/10
    passenger_priority_multiplier := 6/5
    goods_priority_multiplier := 1/2
    halt_penalty_multiplier := 4/5
    reroute_penalty_multiplier := 11/10
    cancel_penalty_multiplier := 1
    peak_hour_multiplier := 6/5 }

/-- Python's `round(x, 2)` modelled as rounding to the nearest hundredth
(half up).  Python rounds exact half-cents to even instead, but no value
compared in this development sits on a half-cent, so the two conventions
agree on everything proved here. -/
def pyRound2 (q : ℚ) : ℚ := (⌊q * 100 + 1/2⌋ : ℚ) / 100

/-- Embeds `MultiStrategyOptimizer._calculate_strategy_score`.  The source
reads `action_type` and `duration_mins` (default 0) from the solution
dict; they are passed here directly.  A `Cancel` candidate produced by
`_generate_solutions` always carries `duration_mins = 0`. -/
def calculateStrategyScore (action_type : String) (duration : ℤ) (t : Train)
    (w : StrategyWeights) : ℚ :=
  let action_cost : ℚ :=
    if action_type = "Halt" then 1
    else if action_type = "SpeedAdjust" then 1/2
    else if action_type = "Reroute" then 5
    else if action_type = "Cancel" then 50
    else 1
  let action_cost :=
    if action_type = "Halt" then action_cost * w.halt_penalty_multiplier
    else if action_type = "Reroute" then
      action_cost * w.reroute_penalty_multiplier
    else if action_type = "Cancel" then
      action_cost * w.cancel_penalty_multiplier
    else action_cost
  let priority_multiplier :=
    let base := priorityWeightLookup t.trainPriority
    if t.train_type = "Express" then base * w.express_priority_multiplier
    else if t.train_type = "Passenger" then
      base * w.passenger_priority_multiplier
    else if t.train_type = "Goods" then base * w.goods_priority_multiplier
    else base
  let duration_penalty :=
    let dp := (duration : ℚ) * (1/2)
    if t.train_type = "Express" then dp * (3/2)
    else if t.train_type = "Goods" then dp * (1/2)
    else dp
  let peak_adjustment :=
    if t.time_of_day = "Morning_Peak" ∨ t.time_of_day = "Evening_Peak" then
      w.peak_hour_multiplier
    else 1
  pyRound2 ((action_cost + duration_penalty) * priority_multiplier
    * peak_adjustment)

/-! ### Specification-side restatements

These definitions transcribe the wording of the claims under test (not the
source); the theorems below compare them with the embedded code. -/

/-- The required buffer as the specification words it: base 10, replaced
by 8 when both trains are Express, replaced by 20 when either is Goods
(the rules are applied in order, so Goods wins), plus 5 for Rain or Fog on
either train, plus 10 for track maintenance on either train. -/
def specRequiredBuffer (t1 t2 : ETARecord) : ℤ :=
  (if t1.train_type = "Goods" ∨ t2.train_type = "Goods" then 20
   else if t1.train_type = "Express" ∧ t2.train_type = "Express" then 8
   else 10)
    + (if (t1.weather = "Rain" ∨ t1.weather = "Fog")
          ∨ (t2.weather = "Rain" ∨ t2.weather = "Fog") then 5 else 0)
    + (if t1.track_condition = "Maintenance"
          ∨ t2.track_condition = "Maintenance" then 10 else 0)

/-- The severity score exactly as the claim words it: one integer sum of a
gap term and four unit bonuses, then the threshold mapping. -/
def specSeverityScore (t1 t2 : ETARecord) (time_diff : ℚ)
    (required_buffer : ℤ) : ℤ :=
  (if time_diff < (required_buffer : ℚ) * (3/10) then 3
   else if time_diff < (required_buffer : ℚ) * (6/10) then 2 else 1)
    + (if t1.recPriority ≤ 2 ∨ t2.recPriority ≤ 2 then 1 else 0)
    + (if t1.weather ≠ "Clear" ∨ t2.weather ≠ "Clear" then 1 else 0)
    + (if t1.track_condition = "Maintenance"
          ∨ t2.track_condition = "Maintenance" then 1 else 0)
    + (if t1.time_of_day = some "Morning_Peak"
          ∨ t1.time_of_day = some "Evening_Peak"
          ∨ t2.time_of_day = some "Morning_Peak"
          ∨ t2.time_of_day = some "Evening_Peak" then 1 else 0)

/-- The severity the claim ascribes to every conflict pair: the threshold
mapping of the five-term sum. -/
def specSeverity (t1 t2 : ETARecord) (time_diff : ℚ)
    (required_buffer : ℤ) : String :=
  severityThreshold (specSeverityScore t1 t2 time_diff required_buffer)

/-! ### Concrete fixtures used by counterexamples and witnesses -/

/-- A baseline train state; individual theorems adjust fields by record
update. -/
def baseTrain : Train :=
  { id := "12001_SHATABDI"
    train_type := "Express"
    section_start := "NDLS"
    section_end := "GZB"
    scheduled_departure_time := "1970-01-01 08:00:00"
    scheduled_arrival_time := "1970-01-01 10:00:00"
    day_of_week := "Monday"
    time_of_day := "Afternoon"
    weather := "Clear"
    track_condition := "Normal"
    trainStatus := "On-Time"
    initial_reported_delay_mins := 0
    actual_delay_mins := 0
    current_location := "NDLS"
    trainPriority := 1
    primary_route := none
    alternative_routes := []
    current_route := none }

/-- A graph in which the only track carries the status `"maintenance"` — a
value the wider code base explicitly works with (the backend's edge-colour
map lists `operational`, `delayed`, `failed` and `maintenance`) and which
the loader accepts unchanged from the topology file. -/
def gMaintenance : NetworkGraph :=
  { stations := [("NDLS", {}), ("GZB", {})]
    tracks := [("NDLS_GZB", { srcStation := "NDLS", dstStation := "GZB",
                              travel_time_minutes := some 30,
                              status := some "maintenance" })]
    adjacency_list :=
      buildAdjacencyList [("NDLS", {}), ("GZB", {})]
        [("NDLS_GZB", { srcStation := "NDLS", dstStation := "GZB",
                        travel_time_minutes := some 30,
                        status := some "maintenance" })] }

/-- A graph whose track `T` is currently disabled with a saved
`original_status` — exactly the state produced by running a single
`disable_track` on a fresh operational graph. -/
def gPreDisabled : NetworkGraph :=
  { stations := [("A", {}), ("B", {})]
    tracks := [("T", { srcStation := "A", dstStation := "B",
                       travel_time_minutes := some 25,
                       status := some "disabled",
                       original_status := some "operational",
                       disable_reason := some "failure",
                       disabled_timestamp := some "t0" })]
    adjacency_list :=
      buildAdjacencyList [("A", {}), ("B", {})]
        [("T", { srcStation := "A", dstStation := "B",
                 travel_time_minutes := some 25,
                 status := some "disabled",
                 original_status := some "operational",
                 disable_reason := some "failure",
                 disabled_timestamp := some "t0" })] }

/-- The operational track used by the C4 witness graph. -/
def tdClean : TrackData :=
  { srcStation := "A", dstStation := "B", travel_time_minutes := some 25,
    status := some "operational" }

/-- A fresh graph as loaded from a topology file: one operational track
and no disable metadata. -/
def gClean : NetworkGraph :=
  { stations := [("A", {}), ("B", {})]
    tracks := [("T", tdClean)]
    adjacency_list := buildAdjacencyList [("A", {}), ("B", {})]
      [("T", tdClean)] }

/-- A one-train network used by witnesses. -/
def netOneTrain : RailwayNetwork :=
  { graph := gClean
    pathfinding_strategy := "dijkstra"
    trains := [("12001_SHATABDI", baseTrain)]
    platforms := []
    track_occupancy := [] }

/-- The delay event with an id no train has, used by the C8 witness. -/
def evUnknownTrain : EventData :=
  { event_type := some "delay", train_id := some "99999_GHOST",
    delay_minutes := some 30, description := some "Reported disruption" }

/-- A low-priority ETA record under track maintenance (weather clear,
off-peak), as produced for a Local train by `get_all_train_etas`. -/
def recMaintA : ETARecord :=
  { train_id := "64001_LOCAL", train_name := "Local 64001_LOCAL",
    train_type := "Local", recPriority := 3, destination := "NDLS",
    eta := 600, scheduled_time := 590, total_delay_mins := 10,
    weather := "Clear", track_condition := "Maintenance",
    time_of_day := none }

/-- A second such record arriving seven minutes later. -/
def recMaintB : ETARecord :=
  { train_id := "64002_LOCAL", train_name := "Local 64002_LOCAL",
    train_type := "Local", recPriority := 3, destination := "NDLS",
    eta := 607, scheduled_time := 597, total_delay_mins := 10,
    weather := "Clear", track_condition := "Maintenance",
    time_of_day := none }

/-- The ETA record the pipeline produces for the witness fixture. -/
def recPipeline : ETARecord :=
  { train_id := "12001_SHATABDI", train_name := "Express 12001_SHATABDI",
    train_type := "Express", recPriority := 1, destination := "GZB",
    eta := 600, scheduled_time := 600, total_delay_mins := 0,
    weather := "Clear", track_condition := "Normal", time_of_day := none }

/-- The two operational alternative tracks of the C10 witness graph. -/
def tdSbb : TrackData :=
  { srcStation := "NDLS", dstStation := "SBB", distance_km := some 22,
    travel_time_minutes := some 35, status := some "operational" }

/-- The second leg of the C10 witness graph, plus its data. -/
def tdGzb : TrackData :=
  { srcStation := "SBB", dstStation := "GZB", distance_km := some 12,
    travel_time_minutes := some 20, status := some "operational" }

/-- A graph carrying the two hard-coded alternative tracks and an
unrelated main-line track. -/
def gDemo : NetworkGraph :=
  { stations := [("NDLS", {}), ("SBB", {}), ("GZB", {})]
    tracks := [("NDLS_GZB_MAIN",
                 { srcStation := "NDLS", dstStation := "GZB",
                   travel_time_minutes := some 40,
                   status := some "operational" }),
               ("NDLS_SBB_ALT", tdSbb), ("SBB_GZB_ALT", tdGzb)]
    adjacency_list := [] }

/-- The Express ETA record of the C1 witness pair. -/
def recExp : ETARecord :=
  { train_id := "12001_SHATABDI", train_name := "Express 12001_SHATABDI",
    train_type := "Express", recPriority := 1, destination := "NDLS",
    eta := 600, scheduled_time := 600, total_delay_mins := 0,
    weather := "Clear", track_condition := "Normal", time_of_day := none }

/-- The Goods ETA record of the C1 witness pair, five minutes behind. -/
def recGds : ETARecord :=
  { train_id := "18205_GOODS", train_name := "Goods 18205_GOODS",
    train_type := "Goods", recPriority := 5, destination := "NDLS",
    eta := 605, scheduled_time := 605, total_delay_mins := 0,
    weather := "Clear", track_condition := "Normal", time_of_day := none }

/-- The Goods train of the C3 failing input, due five minutes after the
Express fixture at the same destination. -/
def trainGds : Train :=
  { baseTrain with
    id := "18205_GOODS"
    train_type := "Goods"
    trainPriority := 5
    scheduled_arrival_time := "1970-01-01 10:05:00" }

/-- The two-train network of the C3 failing input. -/
def netTwoTrains : RailwayNetwork :=
  { graph := gClean
    pathfinding_strategy := "dijkstra"
    trains := [("12001_SHATABDI", baseTrain), ("18205_GOODS", trainGds)]
    platforms := []
    track_occupancy := [] }

/-- The network after `apply_cancellation` has been invoked on the Goods
train. -/
def netCancelled : RailwayNetwork :=
  { netTwoTrains with
    trains := updateAt netTwoTrains.trains "18205_GOODS"
      fun t => (applyCancellation t "Low priority").2 }

/-- The pipeline ETA record of the Express train in `netCancelled`. -/
def recAfterExp : ETARecord :=
  { train_id := "12001_SHATABDI", train_name := "Express 12001_SHATABDI",
    train_type := "Express", recPriority := 1, destination := "GZB",
    eta := 600, scheduled_time := 600, total_delay_mins := 0,
    weather := "Clear", track_condition := "Normal", time_of_day := none }

/-- The pipeline ETA record of the cancelled Goods train — still produced,
since `get_all_train_etas` never looks at the status. -/
def recAfterGds : ETARecord :=
  { train_id := "18205_GOODS", train_name := "Goods 18205_GOODS",
    train_type := "Goods", recPriority := 5, destination := "GZB",
    eta := 605, scheduled_time := 605, total_delay_mins := 0,
    weather := "Clear", track_condition := "Normal", time_of_day := none }

/-! ### Shared association-list lemmas -/

theorem lookupKey_updateAt_self {α : Type} (l : List (String × α))
    (k : String) (f : α → α) :
    lookupKey (updateAt l k f) k = (lookupKey l k).map f := by
  induction l with
  | nil => simp [updateAt, lookupKey]
  | cons p rest ih =>
    obtain ⟨a, v⟩ := p
    by_cases hak : a = k <;> simp [updateAt, lookupKey, hak, ih]

theorem lookupKey_updateAt_ne {α : Type} (l : List (String × α))
    (k k' : String) (f : α → α) (hne : k' ≠ k) :
    lookupKey (updateAt l k f) k' = lookupKey l k' := by
  induction l with
  | nil => simp [updateAt]
  | cons p rest ih =>
    obtain ⟨a, v⟩ := p
    by_cases hak : a = k
    · subst hak
      simp [updateAt, lookupKey, Ne.symm hne, ih]
    · by_cases hak' : a = k'
      · subst hak'
        simp [updateAt, lookupKey, hak, ih]
      · simp [updateAt, lookupKey, hak, hak', ih]

theorem updateAt_updateAt {α : Type} (l : List (String × α)) (k : String)
    (f g : α → α) :
    updateAt (updateAt l k f) k g = updateAt l k fun v => g (f v) := by
  induction l with
  | nil => rfl
  | cons p rest ih =>
    obtain ⟨a, v⟩ := p
    by_cases hak : a = k <;> simp [updateAt, hak, ih]

theorem updateAt_eq_self {α : Type} (l : List (String × α)) (k : String)
    (f : α → α) (H : ∀ v, (k, v) ∈ l → f v = v) :
    updateAt l k f = l := by
  induction l with
  | nil => rfl
  | cons p rest ih =>
    obtain ⟨a, v⟩ := p
    have hrest : updateAt rest k f = rest :=
      ih fun w hw => H w (List.mem_cons_of_mem _ hw)
    by_cases hak : a = k
    · subst hak
      simp [updateAt, hrest, H v (List.mem_cons_self _ _)]
    · simp [updateAt, hak, hrest]

theorem eq_of_mem_lookupKey_nodup {α : Type} {l : List (String × α)}
    {k : String} {v w : α} (hnd : (l.map Prod.fst).Nodup)
    (hlk : lookupKey l k = some v) (hmem : (k, w) ∈ l) : w = v := by
  induction l with
  | nil => cases hmem
  | cons p rest ih =>
    obtain ⟨a, u⟩ := p
    simp only [List.map_cons, List.nodup_cons] at hnd
    rcases List.mem_cons.mp hmem with h | h
    · rw [Prod.ext_iff] at h
      obtain ⟨h1, h2⟩ := h
      simp only at h1 h2
      subst h1
      simp [lookupKey] at hlk
      rw [h2, hlk]
    · by_cases hak : a = k
      · subst hak
        exact absurd (List.mem_map.mpr ⟨(a, w), h, rfl⟩) hnd.1
      · simp only [lookupKey, if_neg hak] at hlk
        exact ih hnd.2 hlk h

/-! ### Claim C2 — network health versus track statuses -/

/-- Claim C2, counterexample: a network state whose snapshot reports
`network_health = "healthy"` although one track's status is
`"maintenance"`, not `"operational"` — so `"healthy"` does not imply that
every edge is operational. -/
theorem C2_counterexample :
    (snapshotNetworkStatus gMaintenance).network_health = "healthy"
      ∧ ¬ (∀ t ∈ gMaintenance.tracks, t.2.status = some "operational") := by
  exact ⟨rfl, by decide⟩

/-- Claim C2 (amended): the snapshot reports `network_health = "healthy"`
if and only if no track edge has status `"disabled"` — not "every edge is
operational": any status other than `"disabled"` (absent, `"maintenance"`,
…) is invisible to the health computation. -/
theorem C2_health_iff_no_disabled (g : NetworkGraph) :
    (snapshotNetworkStatus g).network_health = "healthy"
      ↔ ∀ t ∈ g.tracks, t.2.status ≠ some "disabled" := by
  unfold snapshotNetworkStatus
  simp only
  constructor
  · intro h
    by_cases hz :
        (g.tracks.filter fun t => t.2.status = some "disabled").length = 0
    · intro t ht hst
      have : t ∈ g.tracks.filter fun t => t.2.status = some "disabled" :=
        List.mem_filter.mpr ⟨ht, by simp [hst]⟩
      rw [List.length_eq_zero] at hz
      simp [hz] at this
    · rw [if_neg hz] at h
      exact absurd h (by decide)
  · intro h
    have hz : (g.tracks.filter fun t => t.2.status = some "disabled") = [] := by
      rw [List.filter_eq_nil_iff]
      intro t ht
      simpa using h t ht
    simp [hz]

/-! ### Claim C7 — invalid action parameters are not rejected -/

/-- Claim C7, counterexample: on a train with 50 minutes of accumulated
delay, `apply_speed_adjustment(0.0)` is not rejected — it returns `True`,
clears the delay and rewrites the status — and `apply_halt(-10)` is not
rejected either — it returns `True` and subtracts 10 minutes. -/
theorem C7_counterexample :
    (applySpeedAdjustment { baseTrain with actual_delay_mins := 50 } 0
        "Optimization").1 = true
      ∧ (applySpeedAdjustment { baseTrain with actual_delay_mins := 50 } 0
          "Optimization").2.actual_delay_mins = 0
      ∧ (applyHalt { baseTrain with actual_delay_mins := 50 } (-10)
          "Optimization").1 = true
      ∧ (applyHalt { baseTrain with actual_delay_mins := 50 } (-10)
          "Optimization").2.actual_delay_mins = 40 := by
  refine ⟨rfl, ?_, rfl, by decide⟩
  show max 0 (50 - pyInt ((1 - 0) * 60)) = 0
  have h60 : pyInt ((1 - (0 : ℚ)) * 60) = 60 := by norm_num [pyInt]
  rw [h60]
  decide

/-- Claim C7 (amended): an invalid parameter is not rejected and does not
leave the state unchanged.  A speed factor ≤ 0 returns `True` and applies
the ordinary factor-below-one rule — the delay drops by
`int((1-factor)·60)` minutes, floored at zero, and the status becomes
"Speed Increased" — and a negative halt duration returns `True` and adds
the negative duration to `actual_delay_mins`. -/
theorem C7_invalid_params_applied (t : Train) (factor : ℚ) (d : ℤ)
    (reason : String) (hf : factor ≤ 0) (hd : d < 0) :
    (applySpeedAdjustment t factor reason).1 = true
      ∧ (applySpeedAdjustment t factor reason).2.actual_delay_mins
          = max 0 (t.actual_delay_mins - ⌊(1 - factor) * 60⌋)
      ∧ (applySpeedAdjustment t factor reason).2.trainStatus
          = "Speed Increased (" ++ reason ++ ")"
      ∧ (applyHalt t d reason).1 = true
      ∧ (applyHalt t d reason).2.actual_delay_mins
          = t.actual_delay_mins + d := by
  have h1 : ¬ (1 : ℚ) < factor := by linarith
  have h2 : factor < 1 := by linarith
  have h3 : (0 : ℚ) ≤ (1 - factor) * 60 := by nlinarith
  refine ⟨?_, ?_, ?_, rfl, rfl⟩ <;>
    simp [applySpeedAdjustment, h1, h2, pyInt, h3]

/-- Witness for C7's amended theorem at factor `0` and duration `-10`. -/
theorem C7_witness :
    (0 : ℚ) ≤ 0 ∧ (-10 : ℤ) < 0
      ∧ (applySpeedAdjustment { baseTrain with actual_delay_mins := 50 } 0
          "Optimization").2.actual_delay_mins
          = max 0 (50 - ⌊((1 : ℚ) - 0) * 60⌋) := by
  refine ⟨le_refl 0, by decide, ?_⟩
  exact (C7_invalid_params_applied
    { baseTrain with actual_delay_mins := 50 } 0 (-10) "Optimization"
    (le_refl 0) (by decide)).2.1

/-! ### Claim C9 — `apply_delay` adds exactly Δ and touches no other
train -/

/-- Claim C9: applying `apply_delay(Δ, reason)` to the train stored under
`tid` (the dict update performed by the network's event handler) leaves
every entry with a different key literally unchanged and increases the
target train's `actual_delay_mins` by exactly Δ. -/
theorem C9_apply_delay_frame (trains : List (String × Train)) (tid : String)
    (delta : ℤ) (reason : String) (hpos : 0 ≤ delta) (i : ℕ) (k : String)
    (t : Train) (hi : trains[i]? = some (k, t)) :
    (updateAt trains tid fun u => applyDelayTo u delta reason)[i]?
      = some (if k = tid then
          (k, { t with
                actual_delay_mins := t.actual_delay_mins + delta
                trainStatus :=
                  if reason ≠ "Unknown" then "Delayed (" ++ reason ++ ")"
                  else "Delayed" })
        else (k, t)) := by
  induction trains generalizing i with
  | nil => simp at hi
  | cons p rest ih =>
    obtain ⟨a, v⟩ := p
    cases i with
    | zero =>
      simp only [List.getElem?_cons_zero, Option.some.injEq] at hi
      rw [Prod.ext_iff] at hi
      obtain ⟨h1, h2⟩ := hi
      simp only at h1 h2
      subst h1
      subst h2
      by_cases hk : a = tid <;>
        simp [updateAt, hk, applyDelayTo]
    | succ j =>
      simp only [List.getElem?_cons_succ] at hi
      simpa [updateAt] using ih j hi

/-- Witness for C9 on a two-train dict: the delayed train gains exactly 7
minutes and the other entry is untouched. -/
theorem C9_witness :
    (0 : ℤ) ≤ 7
      ∧ (updateAt [("A", baseTrain), ("B", baseTrain)] "A"
          fun u => applyDelayTo u 7 "signal")[1]?
          = some (if "B" = "A" then
              ("B", { baseTrain with
                      actual_delay_mins := baseTrain.actual_delay_mins + 7
                      trainStatus :=
                        if "signal" ≠ "Unknown" then "Delayed (signal)"
                        else "Delayed" })
            else ("B", baseTrain)) := by
  refine ⟨by decide, ?_⟩
  exact C9_apply_delay_frame [("A", baseTrain), ("B", baseTrain)] "A" 7
    "signal" (by decide) 1 "B" baseTrain rfl

/-! ### Claim C4 — disable/enable round trip -/

/-- Claim C4, counterexample: starting from a (reachable) state in which
track `T` is already disabled with saved original status
`"operational"`, the pair `disable_track(T); enable_track(T)` ends with
status `"operational"` — not the pre-pair value `"disabled"` — because
`disable_track` keeps the previously saved `original_status`. -/
theorem C4_counterexample :
    ((lookupKey (enableTrack
          (disableTrack gPreDisabled "T" "again" "t1").2 "T").2.tracks
        "T").map TrackData.status = some (some "operational"))
      ∧ ((lookupKey gPreDisabled.tracks "T").map TrackData.status
          = some (some "disabled")) := by
  decide

/-- Claim C4 (amended): restricted to starting states in which the track
carries no disable metadata (no saved `original_status`, no
`disable_reason`, no `disabled_timestamp` — the state of every track as
loaded from the topology file), `disable_track(t, r)` followed by
`enable_track(t)` restores the whole graph exactly: the track's status is
its pre-pair value, the metadata keys are absent again, and the adjacency
list equals its pre-pair value. -/
theorem C4_disable_enable_roundtrip (g : NetworkGraph) (tid : String)
    (td : TrackData) (s reason now : String)
    (hnd : (g.tracks.map Prod.fst).Nodup)
    (hlk : lookupKey g.tracks tid = some td)
    (hst : td.status = some s)
    (ho : td.original_status = none)
    (hr : td.disable_reason = none)
    (hts : td.disabled_timestamp = none)
    (hadj : g.adjacency_list = buildAdjacencyList g.stations g.tracks) :
    (enableTrack (disableTrack g tid reason now).2 tid).2 = g := by
  simp only [disableTrack, hlk]
  simp only [enableTrack, lookupKey_updateAt_self, hlk, Option.map_some']
  simp only [updateAt_updateAt]
  have hpt : ∀ v : TrackData, (tid, v) ∈ g.tracks →
      ({ srcStation := v.srcStation, dstStation := v.dstStation,
         distance_km := v.distance_km,
         travel_time_minutes := v.travel_time_minutes,
         track_type := v.track_type,
         capacity_trains_per_hour := v.capacity_trains_per_hour,
         trackPriority := v.trackPriority, max_speed_kmh := v.max_speed_kmh,
         status := some ((match v.original_status with
           | none => some (v.status.getD "operational")
           | some s' => some s').getD "operational"),
         original_status := none, disable_reason := none,
         disabled_timestamp := none } : TrackData) = v := by
    intro v hv
    have hv' : v = td := eq_of_mem_lookupKey_nodup hnd hlk hv
    subst hv'
    rcases v with ⟨a1, a2, a3, a4, a5, a6, a7, a8, a9, a10, a11, a12⟩
    simp_all
  rw [updateAt_eq_self g.tracks tid _ hpt, ← hadj]

/-- Witness for C4's amended theorem on the fresh one-track graph. -/
theorem C4_witness :
    (enableTrack (disableTrack gClean "T" "failure" "t1").2 "T").2
      = gClean :=
  C4_disable_enable_roundtrip gClean "T" tdClean "operational" "failure"
    "t1" (by decide) (by decide) (by decide) (by decide) (by decide)
    (by decide) rfl

/-! ### Claim C8 — delay event with unknown train id -/

/-- Claim C8: a delay event whose `train_id` is missing or is not a key of
the network's train dict makes `apply_event` return `False` with the
entire network state — every train and the topology — unchanged. -/
theorem C8_unknown_train_event (h : String → String → ℚ) (now : String)
    (net : RailwayNetwork) (ev : EventData)
    (htype : ev.event_type = some "delay")
    (hid : ∀ tid, ev.train_id = some tid →
      lookupKey net.trains tid = none) :
    applyEvent h now net ev = (false, net) := by
  simp only [applyEvent, htype, Option.getD_some]
  rw [if_neg (by decide), if_neg (by decide)]
  cases hti : ev.train_id with
  | none => simp [handleTrainEvent, hti]
  | some tid => simp [handleTrainEvent, hti, hid tid hti]

/-- Witness for C8 on the one-train network. -/
theorem C8_witness :
    evUnknownTrain.event_type = some "delay"
      ∧ applyEvent (fun _ _ => 0) "t0" netOneTrain evUnknownTrain
          = (false, netOneTrain) := by
  refine ⟨rfl, ?_⟩
  exact C8_unknown_train_event (fun _ _ => 0) "t0" netOneTrain
    evUnknownTrain rfl (by intro tid ht; simp [evUnknownTrain] at ht
                           subst ht; decide)

/-! ### Claim C5 — Cancel versus Halt under the Balanced profile -/

theorem pyRound2_le_add (q : ℚ) : pyRound2 q ≤ q + 1/200 := by
  unfold pyRound2
  rw [div_le_iff₀ (by norm_num)]
  have h := Int.floor_le (q * 100 + 1/2)
  linarith

theorem pyRound2_5000 : pyRound2 5000 = 5000 := by
  have h : ⌊(5000 : ℚ) * 100 + 1/2⌋ = 500000 := by
    rw [Int.floor_eq_iff]
    constructor <;> norm_num
  unfold pyRound2
  rw [h]
  norm_num

theorem cancel_score_balanced (t : Train) (hp : t.trainPriority = 1) :
    calculateStrategyScore "Cancel" 0 t balancedWeights = 5000 := by
  simp +decide only [calculateStrategyScore, balancedWeights, hp,
    priorityWeightLookup]
  split_ifs <;> first | contradiction | norm_num [pyRound2_5000]

theorem halt_score_balanced_le (t : Train) (d : ℤ)
    (hp : t.trainPriority = 1) (hd : d ≤ 30) :
    calculateStrategyScore "Halt" d t balancedWeights ≤ 2351 := by
  have hdq : (d : ℚ) ≤ 30 := by exact_mod_cast hd
  simp +decide only [calculateStrategyScore, balancedWeights, hp,
    priorityWeightLookup]
  split_ifs <;>
    first
    | contradiction
    | refine le_trans (pyRound2_le_add _) (by ring_nf; linarith)

/-- Claim C5: under the Balanced profile (all multipliers 1.0) with the
default priority weights and the default action penalties, the strategy
score of a `Cancel` candidate (which always carries duration 0) on a
priority-1 train is strictly greater than the score of any `Halt`
candidate of duration at most 30 minutes on the same train. -/
theorem C5_cancel_scores_above_halt (t : Train) (d : ℤ)
    (hp : t.trainPriority = 1) (hd : d ≤ 30) :
    calculateStrategyScore "Halt" d t balancedWeights
      < calculateStrategyScore "Cancel" 0 t balancedWeights := by
  have h1 := halt_score_balanced_le t d hp hd
  rw [cancel_score_balanced t hp]
  linarith

/-- Witness for C5 on the priority-1 Express fixture at a 30-minute
halt. -/
theorem C5_witness :
    baseTrain.trainPriority = 1 ∧ (30 : ℤ) ≤ 30
      ∧ calculateStrategyScore "Halt" 30 baseTrain balancedWeights
          < calculateStrategyScore "Cancel" 0 baseTrain balancedWeights :=
  ⟨rfl, le_refl 30, C5_cancel_scores_above_halt baseTrain 30 rfl (le_refl 30)⟩

/-! ### Claim C6 — conflict severity formula -/

/-- Claim C6, counterexample: on a conflict pair under track maintenance
with a 7-minute gap against a 20-minute buffer, the claimed formula gives
severity `"High"` (gap 2 + maintenance 1 = 3), but the MultiStrategy
detector — which the claim also covers — emits `"Medium"`: its severity
calculator has no maintenance term. -/
theorem C6_counterexample :
    calculateRequiredBuffer recMaintA recMaintB = 20
      ∧ specSeverity recMaintA recMaintB 7 20 = "High"
      ∧ calculateConflictSeverityMS recMaintA recMaintB 7 20 = "Medium"
      ∧ calculateConflictSeverityMS recMaintA recMaintB 7 20
          ≠ specSeverity recMaintA recMaintB 7 20 := by
  have hnone : ∀ s : String, ((none : Option String) = some s) = False :=
    fun s => by simp
  refine ⟨by decide, ?_, ?_, ?_⟩
  · norm_num [specSeverity, specSeverityScore, severityThreshold,
      recMaintA, recMaintB, hnone]
  · norm_num [calculateConflictSeverityMS, severityThreshold,
      recMaintA, recMaintB]
  · norm_num [calculateConflictSeverityMS, specSeverity, specSeverityScore,
      severityThreshold, recMaintA, recMaintB, hnone]
    decide

/-- Claim C6 (amended): the single-`Optimizer` severity equals the
threshold mapping of the claimed integer sum, in which the peak term reads
the records' `time_of_day` — a key `get_all_train_etas` never writes, so
on pipeline records (third conjunct) that term is always zero; the
MultiStrategy severity equals the threshold mapping of the same sum
without the maintenance term (and, on such records, without the peak
term). -/
theorem C6_severity_formulas (t1 t2 : ETARecord) (time_diff : ℚ)
    (buf : ℤ) (h1 : t1.time_of_day = none) (h2 : t2.time_of_day = none) :
    calculateConflictSeverity t1 t2 time_diff buf
        = severityThreshold (specSeverityScore t1 t2 time_diff buf)
      ∧ calculateConflictSeverityMS t1 t2 time_diff buf
        = severityThreshold (specSeverityScore t1 t2 time_diff buf
            - (if t1.track_condition = "Maintenance"
                  ∨ t2.track_condition = "Maintenance" then 1 else 0))
      ∧ ∀ (net : RailwayNetwork), ∀ r ∈ getAllTrainEtas net,
          r.time_of_day = none := by
  refine ⟨?_, ?_, ?_⟩
  · unfold calculateConflictSeverity specSeverityScore
    ring_nf
  · unfold calculateConflictSeverityMS specSeverityScore
    simp only [h1, h2]
    have hz : (if ((none : Option String) = some "Morning_Peak"
          ∨ (none : Option String) = some "Evening_Peak"
          ∨ (none : Option String) = some "Morning_Peak"
          ∨ (none : Option String) = some "Evening_Peak") then (1 : ℤ)
        else 0) = 0 := by simp
    simp only [hz]
    ring_nf
  · intro net r hr
    simp only [getAllTrainEtas, List.mem_filterMap] at hr
    obtain ⟨p, _, hmap⟩ := hr
    rcases hmem : getEtaAtDestination p.2 with _ | info <;> rw [hmem] at hmap
    · simp at hmap
    · simp only [Option.map_some', Option.some.injEq] at hmap
      rw [← hmap]

/-- Witness for C6's amended theorem: the formulas at the maintenance
pair, and the no-`time_of_day` fact at the record `get_all_train_etas`
produces on the one-train network. -/
theorem C6_witness :
    recMaintA.time_of_day = none ∧ recMaintB.time_of_day = none
      ∧ calculateConflictSeverity recMaintA recMaintB 7 20
          = severityThreshold (specSeverityScore recMaintA recMaintB 7 20)
      ∧ recPipeline.time_of_day = none := by
  have h := C6_severity_formulas recMaintA recMaintB 7 20 rfl rfl
  refine ⟨rfl, rfl, h.1, ?_⟩
  refine h.2.2 netOneTrain recPipeline ?_
  simp +decide [getAllTrainEtas, netOneTrain, baseTrain, getEtaAtDestination,
    trainName, parseDatetimeMinutes, splitChars, parseNatField, digitsToNat,
    daysFromCivil, daysInMonth, isLeapYear, recPipeline]
  norm_num

/-! ### Claim C10 — the hard-coded greedy branch for NDLS → GZB -/

/-- Claim C10: whenever tracks `NDLS_SBB_ALT` and `SBB_GZB_ALT` both exist
with operational status, `_greedy_best_first` from `NDLS` to `GZB`
returns exactly the fixed two-segment path `NDLS → SBB → GZB` built from
those two track records — for every optimization criterion, train type,
heuristic function and graph (any further tracks included): the
hard-coded branch returns before the priority-queue search starts. -/
theorem C10_greedy_hardcoded (h : String → String → ℚ) (g : NetworkGraph)
    (criteria train_type : String) (sbb gzb : TrackData)
    (h1 : lookupKey g.tracks "NDLS_SBB_ALT" = some sbb)
    (h2 : lookupKey g.tracks "SBB_GZB_ALT" = some gzb)
    (h3 : sbb.status = some "operational")
    (h4 : gzb.status = some "operational") :
    greedyBestFirst h g "NDLS" "GZB" criteria train_type =
      [{ track_id := "NDLS_SBB_ALT"
         from_station := "NDLS"
         to_station := "SBB"
         distance_km := sbb.distance_km.getD (221/10)
         travel_time_minutes := sbb.travel_time_minutes.getD 35
         track_type := sbb.track_type.getD "single_line"
         capacity := sbb.capacity_trains_per_hour.getD 3
         segPriority := sbb.trackPriority.getD "medium"
         segStatus := "operational" },
       { track_id := "SBB_GZB_ALT"
         from_station := "SBB"
         to_station := "GZB"
         distance_km := gzb.distance_km.getD (123/10)
         travel_time_minutes := gzb.travel_time_minutes.getD 20
         track_type := gzb.track_type.getD "single_line"
         capacity := gzb.capacity_trains_per_hour.getD 3
         segPriority := gzb.trackPriority.getD "medium"
         segStatus := "operational" }] := by
  unfold greedyBestFirst
  rw [h1, h2]
  simp [h3, h4]

/-- Witness for C10 on the demo graph, under the `distance` criterion and
a Goods train. -/
theorem C10_witness :
    lookupKey gDemo.tracks "NDLS_SBB_ALT" = some tdSbb
      ∧ greedyBestFirst (fun _ _ => 37) gDemo "NDLS" "GZB" "distance"
          "Goods" =
        [{ track_id := "NDLS_SBB_ALT"
           from_station := "NDLS"
           to_station := "SBB"
           distance_km := tdSbb.distance_km.getD (221/10)
           travel_time_minutes := tdSbb.travel_time_minutes.getD 35
           track_type := tdSbb.track_type.getD "single_line"
           capacity := tdSbb.capacity_trains_per_hour.getD 3
           segPriority := tdSbb.trackPriority.getD "medium"
           segStatus := "operational" },
         { track_id := "SBB_GZB_ALT"
           from_station := "SBB"
           to_station := "GZB"
           distance_km := tdGzb.distance_km.getD (123/10)
           travel_time_minutes := tdGzb.travel_time_minutes.getD 20
           track_type := tdGzb.track_type.getD "single_line"
           capacity := tdGzb.capacity_trains_per_hour.getD 3
           segPriority := tdGzb.trackPriority.getD "medium"
           segStatus := "operational" }] := by
  refine ⟨by decide, ?_⟩
  exact C10_greedy_hardcoded (fun _ _ => 37) gDemo "distance" "Goods"
    tdSbb tdGzb (by decide) (by decide) (by decide) (by decide)

/-! ### Claim C1 — a conflict is emitted iff the gap is below the
dynamic buffer -/

theorem length_insertByKey {α : Type} (key : α → ℚ) (a : α) (l : List α) :
    (insertByKey key a l).length = l.length + 1 := by
  induction l with
  | nil => rfl
  | cons b bs ih =>
    unfold insertByKey
    split <;> simp [ih]

theorem length_sortByKey {α : Type} (key : α → ℚ) (l : List α) :
    (sortByKey key l).length = l.length := by
  induction l with
  | nil => rfl
  | cons a as ih => simp [sortByKey, length_insertByKey, ih]

theorem gap_lt_of_mem_pairScan {d : String} :
    ∀ {s : List ETARecord} {c : Conflict}, c ∈ pairScan d s →
      c.train_details.2.eta - c.train_details.1.eta
        < (calculateRequiredBuffer c.train_details.1 c.train_details.2 : ℚ)
  | [], c, hc => by simp [pairScan] at hc
  | [_], c, hc => by simp [pairScan] at hc
  | t1 :: t2 :: rest, c, hc => by
    rw [pairScan] at hc
    rcases List.mem_append.mp hc with hl | hr
    · by_cases hcond :
          t2.eta - t1.eta < (calculateRequiredBuffer t1 t2 : ℚ)
      · rw [if_pos hcond] at hl
        rcases List.mem_singleton.mp hl with rfl
        exact hcond
      · rw [if_neg hcond] at hl
        cases hl
    · exact gap_lt_of_mem_pairScan hr

theorem gap_lt_of_mem_detect {etas : List ETARecord} {c : Conflict}
    (hc : c ∈ detectConflicts etas) :
    c.train_details.2.eta - c.train_details.1.eta
      < (calculateRequiredBuffer c.train_details.1 c.train_details.2 : ℚ) := by
  unfold detectConflicts at hc
  by_cases hlen : etas.length < 2
  · rw [if_pos hlen] at hc
    cases hc
  · rw [if_neg hlen] at hc
    obtain ⟨l, hl, hcl⟩ := List.mem_flatten.mp hc
    obtain ⟨p, _, rfl⟩ := List.mem_map.mp hl
    unfold groupConflicts at hcl
    by_cases hp : 1 < p.2.length
    · rw [if_pos hp] at hcl
      exact gap_lt_of_mem_pairScan hcl
    · rw [if_neg hp] at hcl
      cases hcl

theorem mem_pairScan_of_consecutive (d : String) :
    ∀ (s : List ETARecord) (i : ℕ) (a b : ETARecord),
      s[i]? = some a → s[i + 1]? = some b →
      b.eta - a.eta < (calculateRequiredBuffer a b : ℚ) →
      mkConflict d a b ∈ pairScan d s := by
  intro s
  induction s with
  | nil => intro i a b ha _ _; simp at ha
  | cons x tail ih =>
    intro i a b ha hb hlt
    cases i with
    | zero =>
      simp only [List.getElem?_cons_zero, Option.some.injEq] at ha
      subst ha
      cases tail with
      | nil => simp at hb
      | cons y rest =>
        simp only [List.getElem?_cons_succ, List.getElem?_cons_zero,
          Option.some.injEq] at hb
        subst hb
        rw [pairScan, if_pos hlt]
        exact List.mem_append_left _ (List.mem_singleton.mpr rfl)
    | succ j =>
      simp only [List.getElem?_cons_succ] at ha hb
      cases tail with
      | nil => simp at ha
      | cons y rest =>
        rw [pairScan]
        exact List.mem_append_right _ (ih j a b ha hb hlt)

theorem specRequiredBuffer_eq (t1 t2 : ETARecord) :
    specRequiredBuffer t1 t2 = calculateRequiredBuffer t1 t2 := by
  unfold specRequiredBuffer calculateRequiredBuffer
  by_cases hG : t1.train_type = "Goods" ∨ t2.train_type = "Goods"
  · have hE : ¬ (t1.train_type = "Express" ∧ t2.train_type = "Express") := by
      rintro ⟨e1, e2⟩
      rcases hG with g | g
      · rw [e1] at g
        exact absurd g (by decide)
      · rw [e2] at g
        exact absurd g (by decide)
    simp only [hG, hE, if_true, if_false]
    split_ifs <;> omega
  · simp only [hG, if_false]
    split_ifs <;> omega

/-- Claim C1: for records `a`, `b` consecutive in ascending-ETA order
within one destination group of an ETA list holding at least two records,
the detector emits the conflict for `(a, b)` exactly when the minute gap
`b.eta - a.eta` is below the dynamic buffer of the claim (base 10, 8 when
both are Express, 20 when either is Goods, +5 for Rain or Fog, +10 for
maintenance). -/
theorem C1_conflict_iff (etas : List ETARecord) (d : String)
    (group : List ETARecord) (i : ℕ) (a b : ETARecord)
    (hlen : 2 ≤ etas.length)
    (hg : (d, group) ∈ groupByDestination etas)
    (ha : (sortByEta group)[i]? = some a)
    (hb : (sortByEta group)[i + 1]? = some b) :
    mkConflict d a b ∈ detectConflicts etas
      ↔ b.eta - a.eta < (specRequiredBuffer a b : ℚ) := by
  rw [specRequiredBuffer_eq]
  constructor
  · intro hmem
    have hgap := gap_lt_of_mem_detect hmem
    simpa [mkConflict] using hgap
  · intro hlt
    unfold detectConflicts
    rw [if_neg (by omega)]
    refine List.mem_flatten.mpr
      ⟨groupConflicts (d, group), List.mem_map.mpr ⟨(d, group), hg, rfl⟩, ?_⟩
    have hblen : i + 1 < (sortByEta group).length := by
      rcases List.getElem?_eq_some.mp hb with ⟨hlt2, _⟩
      exact hlt2
    have hglen : 1 < group.length := by
      have := hblen
      rw [sortByEta, length_sortByKey] at this
      omega
    unfold groupConflicts
    rw [if_pos hglen]
    exact mem_pairScan_of_consecutive d (sortByEta group) i a b ha hb hlt

/-- Witness for C1 on a two-record list: the Express/Goods pair at NDLS,
five minutes apart against a 20-minute buffer. -/
theorem C1_witness :
    2 ≤ ([recExp, recGds] : List ETARecord).length
      ∧ ("NDLS", [recExp, recGds]) ∈ groupByDestination [recExp, recGds]
      ∧ (sortByEta [recExp, recGds])[0]? = some recExp
      ∧ (sortByEta [recExp, recGds])[1]? = some recGds
      ∧ (mkConflict "NDLS" recExp recGds ∈ detectConflicts [recExp, recGds]
          ↔ recGds.eta - recExp.eta
              < (specRequiredBuffer recExp recGds : ℚ)) := by
  refine ⟨by decide, by decide, by decide, by decide, ?_⟩
  exact C1_conflict_iff [recExp, recGds] "NDLS" [recExp, recGds] 0
    recExp recGds (by decide) (by decide) (by decide) (by decide)

/-! ### Claim C3 — cancelled trains and conflict detection -/

/-- Claim C3, failing-input exhibit (the claim is right and the code
wrong): after cancelling the Goods train, conflict detection on the
network still emits a conflict whose `affected_trains` contains the
cancelled train's id — `get_all_train_etas` has no status filter, so the
cancelled train keeps its ETA record and the 5-minute gap below the
20-minute Goods buffer is still reported. -/
theorem C3_cancelled_still_detected :
    ((lookupKey netCancelled.trains "18205_GOODS").map Train.trainStatus
        = some "Cancelled (Low priority)")
      ∧ getAllTrainEtas netCancelled = [recAfterExp, recAfterGds]
      ∧ (detectConflicts [recAfterExp, recAfterGds]).any
          (fun c => c.affected_trains.contains "18205_GOODS") = true := by
  have hetas : getAllTrainEtas netCancelled = [recAfterExp, recAfterGds] := by
    simp +decide [getAllTrainEtas, netCancelled, netTwoTrains, updateAt,
      applyCancellation, baseTrain, trainGds, getEtaAtDestination, trainName,
      parseDatetimeMinutes, splitChars, parseNatField, digitsToNat,
      daysFromCivil, daysInMonth, isLeapYear, recAfterExp, recAfterGds]
    norm_num
  refine ⟨by decide, hetas, ?_⟩
  norm_num [detectConflicts, groupByDestination, bookRecord, groupConflicts,
    sortByEta, sortByKey, insertByKey, pairScan, mkConflict,
    calculateRequiredBuffer, calculateConflictSeverity, severityThreshold,
    recAfterExp, recAfterGds, List.any, List.contains]

end RVision
